import Mathlib

/-!
Verification of the bike-store SQL query-writer agent scaffold.

The development shallowly embeds the two Python modules of the repository:
`src/agent.py` (the `QueryWriter` class: a stubbed `generate_query` method and the
pure schema formatter `_format_schema`) and `src/db/bike_store.py` (the CSV loader
`BikeStoreDb._create_db` and the introspection helper `get_schema_info`).
Effectful library calls (duckdb connections, `read_csv_auto`, the Ollama backend)
are modelled by explicit state and explicitly fallible functions; everything else
follows the Python source line by line.
-/

namespace BikeStore

/-- A column descriptor as produced by `DESCRIBE`: the dictionaries
`{"name": col[0], "type": col[1]}` built in `get_schema_info`. -/
structure ColumnDescriptor where
  name : String
  type : String
deriving DecidableEq

/-- The schema catalog of `get_schema_info`: a Python dict mapping table name to
its column descriptors; insertion order (the discovery order) is kept, so we use
an ordered association list. The same shape models the table map of a DuckDB
database file. -/
abbrev Catalog := List (String × List ColumnDescriptor)

/-- The errors the agent layer can raise. `notImplementedError` is the Python
builtin the stub raises; `emptyQuestion` is the spec's `EmptyQuestion` failure
mode, declared here so that statements about it can be made (the source never
raises it). -/
inductive AgentError where
  | notImplementedError (msg : String)
  | emptyQuestion
deriving DecidableEq

/-- Errors of the database layer. `catalogUnavailable` models the exception
`duckdb.connect` raises when the database handle cannot be opened (the failure
the spec names `CatalogUnavailable`); `showTablesFailed` and `describeFailed`
model a listing query raising mid-introspection. -/
inductive DbErr where
  | catalogUnavailable
  | showTablesFailed
  | describeFailed
deriving DecidableEq

/-- `QueryWriter.generate_query` from `src/agent.py`: the body is the single
statement `raise NotImplementedError("Implement the generate_query method!")`.
The result is modelled as a pair of the outcome (always that error) and the
number of chat requests issued to the Ollama backend before the method
terminates; the body issues none. -/
def generate_query (prompt : String) : Except AgentError String × Nat :=
  (.error (.notImplementedError "Implement the generate_query method!"), 0)

/-- The spec's recognition of a query keyword (§4.3 validation: the returned
text begins with a data-manipulation or query keyword such as SELECT/WITH). -/
def startsWithQueryKeyword (s : String) : Bool :=
  s.startsWith "SELECT" || s.startsWith "WITH"

/-- `QueryWriter._format_schema` from `src/agent.py`: for each `(table, columns)`
of `self.schema` in order, build `f"Table {table_name}: {cols}"` where `cols`
joins `f"{col.name} ({col.type})"` with `", "`, and join the lines with `"\n"`.
Python's `sep.join` is `String.intercalate`. -/
def format_schema (schema : Catalog) : String :=
  String.intercalate "\n" (schema.map fun p =>
    "Table " ++ p.1 ++ ": " ++
      String.intercalate ", " (p.2.map fun col => col.name ++ " (" ++ col.type ++ ")"))

/-- Separator join written as a plain recursion, used to state the line/item
structure the spec describes for the formatter (one line per table, one
comma-separated item per column). `intercalate_eq_joinSep` proves it agrees
with `String.intercalate`. -/
def joinSep (sep : String) : List String → String
  | [] => ""
  | [a] => a
  | a :: b :: as => a ++ sep ++ joinSep sep (b :: as)

/-- `fname.lower()` restricted to the character data; Python's `str.lower` and
`Char.toLower` agree on the ASCII file names at hand. -/
def lowerData (s : String) : List Char := s.data.map Char.toLower

/-- The test `fname.lower().endswith(".csv")` of `BikeStoreDb._create_db`. -/
def isCsvFile (fname : String) : Bool :=
  List.isSuffixOf ".csv".data (lowerData fname)

/-- `os.path.splitext(fname)[0]` for a bare file name: the extension starts at
the last dot, unless every character before that dot is itself a dot (then the
whole name is the stem and nothing is stripped). -/
def splitextStem (fname : String) : String :=
  match List.findIdx? (fun c => c == '.') fname.data.reverse with
  | none => fname
  | some k =>
    if (fname.data.take (fname.data.length - 1 - k)).any (fun c => c != '.') then
      String.mk (fname.data.take (fname.data.length - 1 - k))
    else fname

/-- Whether the database already has a table of the given name. -/
def tableExists (db : Catalog) (name : String) : Bool :=
  db.any fun p => p.1 == name

/-- `CREATE TABLE IF NOT EXISTS name AS SELECT * FROM read_csv_auto(fpath)`:
a no-op when a table of that name already exists, otherwise the new table is
added with the schema detected from the file. -/
def createTableIfNotExists (db : Catalog) (name : String)
    (cols : List ColumnDescriptor) : Catalog :=
  if tableExists db name then db else db ++ [(name, cols)]

/-- `BikeStoreDb._create_db` from `src/db/bike_store.py`: iterate over the
files of the download directory; every name that ends in ".csv"
case-insensitively is loaded as a table named by its `splitext` stem.
`readCsvAuto` models `read_csv_auto`: the column schema auto-detected from the
file's content. -/
def create_db (readCsvAuto : String → List ColumnDescriptor)
    (files : List String) (db : Catalog) : Catalog :=
  files.foldl (fun d fname =>
    if isCsvFile fname then
      createTableIfNotExists d (splitextStem fname) (readCsvAuto fname)
    else d) db

/-- A read connection to DuckDB as `get_schema_info` uses it: one `SHOW TABLES`
query and one `DESCRIBE t` per listed table; either kind of query can raise. -/
structure Conn where
  showTables : Except DbErr (List String)
  describe : String → Except DbErr (List ColumnDescriptor)

/-- The loop of `get_schema_info`: `DESCRIBE` each table in listing order,
appending `(table, columns)` to the dictionary, and propagate the first
raise. -/
def describeAll (describe : String → Except DbErr (List ColumnDescriptor)) :
    List String → Catalog → Except DbErr Catalog
  | [], acc => .ok acc
  | t :: ts, acc =>
    match describe t with
    | .error e => .error e
    | .ok cols => describeAll describe ts (acc ++ [(t, cols)])

/-- The body of `get_schema_info` after `duckdb.connect` succeeds. The Bool
records whether the `con.close()` line executes: the source has no
try/finally, so an exception raised by `SHOW TABLES` or by a `DESCRIBE`
propagates before the close line is reached. -/
def get_schema_info_run (conn : Conn) : Except DbErr Catalog × Bool :=
  match conn.showTables with
  | .error e => (.error e, false)
  | .ok tabs =>
    match describeAll conn.describe tabs [] with
    | .error e => (.error e, false)
    | .ok cat => (.ok cat, true)

/-- The connection a consistent database file yields: `SHOW TABLES` lists the
tables in order and `DESCRIBE t` returns the stored schema of `t`. -/
def connOf (db : Catalog) : Conn :=
  { showTables := .ok (db.map Prod.fst)
    describe := fun t =>
      match db.find? (fun p => p.1 == t) with
      | some p => .ok p.2
      | none => .error .describeFailed }

/-- `get_schema_info(db_path)` from `src/db/bike_store.py`: `duckdb.connect`
raises when the handle cannot be opened (the spec's `CatalogUnavailable`);
otherwise the introspection body runs. `world` maps a path to the database
file stored there, `none` meaning the handle cannot be opened. -/
def get_schema_info (world : String → Option Catalog) (db_path : String) :
    Except DbErr Catalog :=
  match world db_path with
  | none => .error .catalogUnavailable
  | some db => (get_schema_info_run (connOf db)).1

/-- A `read_csv_auto` model for the round-trip scenario: `products.csv` holds
content whose detected schema is `(product_id INTEGER, product_name VARCHAR)`. -/
def demoReadCsv : String → List ColumnDescriptor := fun f =>
  if f = "products.csv" then
    [⟨"product_id", "INTEGER"⟩, ⟨"product_name", "VARCHAR"⟩]
  else []

/-- A filesystem world for C6's witness: `bike_store.db` holds a database with
zero tables; any other path cannot be opened. -/
def demoWorld : String → Option Catalog := fun p =>
  if p = "bike_store.db" then some [] else none

/-- A connection whose `DESCRIBE` raises: used to exhibit the exit path of
`get_schema_info` on which the connection is not closed. -/
def badConn : Conn :=
  { showTables := .ok ["products"]
    describe := fun _ => .error .describeFailed }

/-- The filesystem world of the round-trip scenario: `bike_store.db` holds the
database `_create_db` built from the single file `products.csv`. -/
def roundTripWorld : String → Option Catalog := fun p =>
  if p = "bike_store.db" then some (create_db demoReadCsv ["products.csv"] []) else none

end BikeStore

namespace BikeStore

theorem joinSep_glue (sep acc a : String) (as : List String) :
    joinSep sep ((acc ++ sep ++ a) :: as) = acc ++ sep ++ joinSep sep (a :: as) := by
  cases as with
  | nil => rfl
  | cons b bs => simp [joinSep, String.append_assoc]

theorem intercalate_go_eq (sep : String) (as : List String) (acc : String) :
    String.intercalate.go acc sep as = joinSep sep (acc :: as) := by
  induction as generalizing acc with
  | nil => rfl
  | cons a as ih =>
    rw [String.intercalate.go, ih, joinSep_glue]
    rfl

theorem intercalate_eq_joinSep (sep : String) (l : List String) :
    String.intercalate sep l = joinSep sep l := by
  cases l with
  | nil => rfl
  | cons a as => rw [String.intercalate, intercalate_go_eq]

/-- Claim C2: the query-generation method is an unimplemented stub: for every
prompt, `generate_query` raises `NotImplementedError` and never returns a
value. -/
theorem generate_query_stub (prompt : String) :
    (generate_query prompt).1 =
      .error (.notImplementedError "Implement the generate_query method!") ∧
    ∀ s, (generate_query prompt).1 ≠ .ok s := by
  refine ⟨rfl, ?_⟩
  intro s h
  simp [generate_query] at h

/-- Claim C1: for every non-empty question and non-empty catalog,
`generate_query` either returns a string beginning with a recognized query
keyword or raises a declared error, and it never returns an empty string
without raising. (The stub always raises, so the second disjunct holds.) -/
theorem generate_query_keyword_or_error (prompt : String) (catalog : Catalog)
    (hp : prompt ≠ "") (hc : catalog ≠ []) :
    ((∃ s, (generate_query prompt).1 = .ok s ∧ startsWithQueryKeyword s = true) ∨
      (∃ e, (generate_query prompt).1 = .error e)) ∧
    ∀ s, (generate_query prompt).1 = .ok s → s ≠ "" := by
  refine ⟨.inr ⟨_, rfl⟩, ?_⟩
  intro s h
  simp [generate_query] at h

/-- Witness for C1 at a concrete non-empty question and catalog. -/
theorem generate_query_keyword_or_error_witness :
    ((∃ s, (generate_query "How many products are there?").1 = .ok s ∧
        startsWithQueryKeyword s = true) ∨
      (∃ e, (generate_query "How many products are there?").1 = .error e)) ∧
    ∀ s, (generate_query "How many products are there?").1 = .ok s → s ≠ "" :=
  generate_query_keyword_or_error "How many products are there?"
    [("products", [⟨"product_id", "INTEGER"⟩])] (by decide) (by simp)

/-- Claim C3, counterexample: on the empty question the stub raises
`NotImplementedError`, not the spec's `EmptyQuestion` error. -/
theorem generate_query_empty_not_emptyQuestion :
    (generate_query "").1 ≠ .error .emptyQuestion ∧
    (generate_query "").1 =
      .error (.notImplementedError "Implement the generate_query method!") := by
  refine ⟨?_, rfl⟩
  simp [generate_query]

/-- Claim C3, amended: for the empty question `generate_query` fails fast by
raising `NotImplementedError` (not `EmptyQuestion`), and no backend call is
made before it fails. -/
theorem generate_query_empty_raises_no_backend_call :
    (generate_query "").1 =
      .error (.notImplementedError "Implement the generate_query method!") ∧
    (generate_query "").2 = 0 :=
  ⟨rfl, rfl⟩

/-- Claim C4: the schema formatter is deterministic: two calls on the same
catalog yield byte-identical output text. -/
theorem format_schema_deterministic (s₁ s₂ : Catalog) (h : s₁ = s₂) :
    format_schema s₁ = format_schema s₂ := by
  rw [h]

/-- Witness for C4 at a concrete catalog. -/
theorem format_schema_deterministic_witness :
    format_schema [("products", [⟨"product_id", "INTEGER"⟩])] =
      format_schema [("products", [⟨"product_id", "INTEGER"⟩])] :=
  format_schema_deterministic _ _ rfl

/-- Claim C5: for every catalog the formatter emits, for each table in the
catalog's stable order, one line naming the table followed by a comma-separated
list of "name (type)" pairs, preserving the columns' native order. -/
theorem format_schema_table_lines (schema : Catalog) :
    format_schema schema =
      joinSep "\n" (schema.map fun p =>
        "Table " ++ p.1 ++ ": " ++
          joinSep ", " (p.2.map fun col => col.name ++ " (" ++ col.type ++ ")")) := by
  simp only [format_schema, intercalate_eq_joinSep]

theorem create_db_nil (r : String → List ColumnDescriptor) (db : Catalog) :
    create_db r [] db = db := rfl

theorem create_db_cons (r : String → List ColumnDescriptor) (f : String)
    (fs : List String) (db : Catalog) :
    create_db r (f :: fs) db =
      create_db r fs
        (if isCsvFile f then createTableIfNotExists db (splitextStem f) (r f) else db) :=
  rfl

theorem tableExists_append (db : Catalog) (p : String × List ColumnDescriptor)
    (n : String) :
    tableExists (db ++ [p]) n = (tableExists db n || (p.1 == n)) := by
  simp [tableExists, List.any_append]

theorem tableExists_createTableIfNotExists (db : Catalog) (m : String)
    (c : List ColumnDescriptor) (n : String) (h : tableExists db n = true) :
    tableExists (createTableIfNotExists db m c) n = true := by
  unfold createTableIfNotExists
  split
  · exact h
  · simp [tableExists_append, h]

theorem tableExists_create_db_mono (r : String → List ColumnDescriptor)
    (files : List String) (db : Catalog) (n : String)
    (h : tableExists db n = true) :
    tableExists (create_db r files db) n = true := by
  induction files generalizing db with
  | nil => exact h
  | cons f fs ih =>
    rw [create_db_cons]
    by_cases hf : isCsvFile f = true
    · rw [if_pos hf]
      exact ih _ (tableExists_createTableIfNotExists _ _ _ _ h)
    · rw [if_neg hf]
      exact ih _ h

theorem stem_exists_after_create_db (r : String → List ColumnDescriptor)
    (files : List String) (db : Catalog) :
    ∀ f ∈ files, isCsvFile f = true →
      tableExists (create_db r files db) (splitextStem f) = true := by
  induction files generalizing db with
  | nil => simp
  | cons g gs ih =>
    intro f hf hcsv
    rw [create_db_cons]
    rcases List.mem_cons.mp hf with rfl | hf
    · rw [if_pos hcsv]
      refine tableExists_create_db_mono _ _ _ _ ?_
      by_cases hex : tableExists db (splitextStem f) = true
      · exact tableExists_createTableIfNotExists _ _ _ _ hex
      · unfold createTableIfNotExists
        rw [if_neg hex]
        simp [tableExists_append]
    · by_cases hg : isCsvFile g = true
      · rw [if_pos hg]
        exact ih _ f hf hcsv
      · rw [if_neg hg]
        exact ih _ f hf hcsv

theorem create_db_noop (r : String → List ColumnDescriptor)
    (files : List String) (db : Catalog)
    (h : ∀ f ∈ files, isCsvFile f = true →
      tableExists db (splitextStem f) = true) :
    create_db r files db = db := by
  induction files with
  | nil => rfl
  | cons g gs ih =>
    rw [create_db_cons]
    by_cases hg : isCsvFile g = true
    · rw [if_pos hg]
      unfold createTableIfNotExists
      rw [if_pos (h g (List.mem_cons_self g gs) hg)]
      exact ih fun f hf hc => h f (List.mem_cons_of_mem g hf) hc
    · rw [if_neg hg]
      exact ih fun f hf hc => h f (List.mem_cons_of_mem g hf) hc

theorem create_db_fresh (r : String → List ColumnDescriptor)
    (files : List String) (db : Catalog)
    (hnd : ((files.filter isCsvFile).map splitextStem).Nodup)
    (hdb : ∀ f ∈ files, isCsvFile f = true →
      tableExists db (splitextStem f) = false) :
    create_db r files db =
      db ++ (files.filter isCsvFile).map fun f => (splitextStem f, r f) := by
  induction files generalizing db with
  | nil => simp [create_db_nil]
  | cons g gs ih =>
    rw [create_db_cons]
    by_cases hg : isCsvFile g = true
    · rw [if_pos hg]
      unfold createTableIfNotExists
      rw [if_neg (by rw [hdb g (List.mem_cons_self g gs) hg]; simp)]
      rw [List.filter_cons_of_pos hg] at hnd ⊢
      rw [List.map_cons] at hnd
      have hnotin := (List.nodup_cons.mp hnd).1
      have htail := (List.nodup_cons.mp hnd).2
      rw [ih _ htail ?_]
      · simp [List.append_assoc]
      · intro f hf hc
        rw [tableExists_append]
        rw [hdb f (List.mem_cons_of_mem g hf) hc]
        simp only [Bool.false_or]
        have : splitextStem f ∈ (gs.filter isCsvFile).map splitextStem :=
          List.mem_map_of_mem _ (List.mem_filter.mpr ⟨hf, hc⟩)
        simp only [beq_eq_false_iff_ne, ne_eq]
        intro hEq
        exact hnotin (hEq ▸ this)
    · rw [if_neg hg]
      rw [List.filter_cons_of_neg hg] at hnd ⊢
      exact ih _ hnd fun f hf hc => hdb f (List.mem_cons_of_mem g hf) hc

theorem splitextStem_isPre (f : String) : (splitextStem f).data <+: f.data := by
  unfold splitextStem
  cases List.findIdx? (fun c => c == '.') f.data.reverse with
  | none => exact List.prefix_refl _
  | some k =>
    simp only
    split
    · exact ⟨f.data.drop (f.data.length - 1 - k), List.take_append_drop _ _⟩
    · exact List.prefix_refl _

/-- Claim C8: on a fresh database, every file whose name ends in ".csv"
case-insensitively becomes exactly one table, named by the file name with the
extension stripped (the stem is a literal, case-preserving prefix of the file
name), its columns auto-detected from the content; non-.csv files produce no
table. Stated under the hypothesis that the csv files' stems are pairwise
distinct (`os.listdir` yields distinct names, so stems only collide for
case-variant duplicates such as `a.csv`/`a.CSV`). -/
theorem create_db_tables_from_csv (r : String → List ColumnDescriptor)
    (files : List String)
    (hnd : ((files.filter isCsvFile).map splitextStem).Nodup) :
    create_db r files [] =
      (files.filter isCsvFile).map (fun f => (splitextStem f, r f)) ∧
    ∀ f ∈ files, (splitextStem f).data <+: f.data := by
  constructor
  · rw [create_db_fresh r files [] hnd (by intro f _ _; rfl)]
    simp
  · intro f _
    exact splitextStem_isPre f

/-- Witness for C8 on a concrete directory listing: the two csv files (one
with an upper-case extension) become tables, the README does not. -/
theorem create_db_tables_from_csv_witness :
    create_db demoReadCsv ["products.csv", "brands.CSV", "README.txt"] [] =
      ((["products.csv", "brands.CSV", "README.txt"].filter isCsvFile).map
        (fun f => (splitextStem f, demoReadCsv f))) :=
  (create_db_tables_from_csv demoReadCsv
    ["products.csv", "brands.CSV", "README.txt"] (by decide)).1

/-- Claim C10: the CSV load is idempotent with respect to existing tables:
a second run of `_create_db` over the same directory listing (even if
`read_csv_auto` would now detect different content) leaves the database
produced by the first run unchanged, because every `CREATE TABLE IF NOT
EXISTS` finds its table already present. -/
theorem create_db_idempotent (r₁ r₂ : String → List ColumnDescriptor)
    (files : List String) (db₀ : Catalog) :
    create_db r₂ files (create_db r₁ files db₀) = create_db r₁ files db₀ :=
  create_db_noop r₂ files _ fun f hf hc =>
    stem_exists_after_create_db r₁ files db₀ f hf hc

/-- Claim C6: introspecting a database with zero tables returns the empty
catalog as a valid degenerate result, not an error; when the database handle
cannot be opened, introspection fails with the `CatalogUnavailable` failure
(the exception raised by `duckdb.connect`). -/
theorem get_schema_info_zero_tables_and_unopenable
    (world : String → Option Catalog) (path : String) :
    (world path = none →
      get_schema_info world path = .error .catalogUnavailable) ∧
    (world path = some [] → get_schema_info world path = .ok []) := by
  constructor <;> intro h <;>
    simp [get_schema_info, h, get_schema_info_run, connOf, describeAll]

/-- Witness for C6: a concrete world where `bike_store.db` holds zero tables
and `missing.db` cannot be opened. -/
theorem get_schema_info_zero_tables_witness :
    get_schema_info demoWorld "missing.db" = .error .catalogUnavailable ∧
    get_schema_info demoWorld "bike_store.db" = .ok [] :=
  ⟨(get_schema_info_zero_tables_and_unopenable demoWorld "missing.db").1 (by decide),
    (get_schema_info_zero_tables_and_unopenable demoWorld "bike_store.db").2 (by decide)⟩

/-- Claim C7, counterexample: on a connection whose `DESCRIBE` raises partway
through introspection, the exception propagates and the `con.close()` line is
never reached (the source has no try/finally), so the connection is not
released on that exit path. -/
theorem get_schema_info_close_skipped_on_failure :
    (get_schema_info_run badConn).2 = false ∧
    (get_schema_info_run badConn).1 = .error .describeFailed :=
  ⟨rfl, rfl⟩

/-- Claim C7, amended: `get_schema_info` closes its connection immediately
after the listing calls on the successful exit path, and only there: the
close runs exactly when introspection returns a catalog, and is skipped
whenever `SHOW TABLES` or a `DESCRIBE` raises. -/
theorem get_schema_info_closes_iff_ok (conn : Conn) :
    (get_schema_info_run conn).2 = true ↔
      ∃ cat, (get_schema_info_run conn).1 = .ok cat := by
  unfold get_schema_info_run
  cases conn.showTables with
  | error e => simp
  | ok tabs =>
    cases h : describeAll conn.describe tabs [] with
    | error e => simp [h]
    | ok cat => simp [h]

/-- Claim C9: catalog introspection round-trips the load: loading `products`
with columns `(product_id INTEGER, product_name VARCHAR)` and then calling
`get_schema_info` yields for `products` exactly those two column descriptors,
with those names and types, in that order. -/
theorem catalog_round_trip :
    get_schema_info roundTripWorld "bike_store.db" =
      .ok [("products",
        [⟨"product_id", "INTEGER"⟩, ⟨"product_name", "VARCHAR"⟩])] := by
  rfl

end BikeStore
